import Mathlib

/-!
Verification of the rate/decimation math, pipeline building, squelch control,
chopper scheduling and spot-line parsing of the openwebrx backend
(src/csdr.py and src/owrx/wsjt.py), via a shallow embedding in Lean.

Conventions of the embedding:
* Python real-number arithmetic (true division `/`, `float(...)`) is modelled
  over `ℚ`.
* The mutable `dsp` object of src/csdr.py is modelled by the immutable record
  `DspState` holding exactly the attributes the embedded methods read or write;
  methods become functions `DspState → ... → DspState × effects`, where the
  effect component records control-channel writes (as the numeric value of the
  newline-terminated ASCII line the source writes) or whether `restart()` was
  invoked.
* Fallible Python code is modelled in `Except PyErr`; only the exception
  classes that the embedded code can actually raise or catch are distinguished.
-/

/-- Exception kinds relevant to the embedded code: `ValueError` (raised by
`float()`, `int()`, `datetime.strptime`, and the class `parse` catches) and
`IndexError` (raised by out-of-range string indexing `msg[i]`). -/
inductive PyErr where
  | valueError : PyErr
  | indexError : PyErr
deriving DecidableEq, Repr

/-- The attributes of the `dsp` object (src/csdr.py, `dsp.__init__`) that the
embedded methods depend on.  `decimation` and `last_decimation` are the fields
assigned by `calculate_decimation`; `secondary_demodulator` is `None` or a mode
string (the Python code only ever stores `None` or a nonempty mode name, so
object truthiness coincides with `Option.isSome`). -/
structure DspState where
  samp_rate : ℚ
  output_rate : ℚ
  demodulator : String
  secondary_demodulator : Option String
  squelch_level : ℚ
  running : Bool
  csdr_dynamic_bufsize : Bool
  csdr_through : Bool
  audio_compression : String
  fft_compression : String
  fft_averages : Nat
  decimation : Nat
  last_decimation : ℚ
deriving DecidableEq, Repr

/-- The digital-voice mode list from `dsp.isDigitalVoice`. -/
def digital_voice_kinds : List String := ["dmr", "dstar", "nxdn", "ysf"]

/-- The weak-signal (WSJT) mode list from `dsp.isWsjtMode`. -/
def wsjt_kinds : List String := ["ft8", "wspr", "jt65", "jt9", "ft4"]

/-- `dsp.get_demodulator`. -/
def dsp.get_demodulator (s : DspState) : String := s.demodulator

/-- `dsp.get_secondary_demodulator`. -/
def dsp.get_secondary_demodulator (s : DspState) : Option String :=
  s.secondary_demodulator

/-- `dsp.get_output_rate`. -/
def dsp.get_output_rate (s : DspState) : ℚ := s.output_rate

/-- `dsp.isDigitalVoice(demodulator=None)`: `none` stands for the defaulted
argument, in which case the current primary demodulator is consulted. -/
def dsp.isDigitalVoice (s : DspState) (demodulator : Option String) : Bool :=
  digital_voice_kinds.contains (demodulator.getD (dsp.get_demodulator s))

/-- `dsp.isWsjtMode(demodulator=None)`: `none` stands for the defaulted
argument, in which case the secondary demodulator (itself possibly `None`,
which is a member of no list) is consulted. -/
def dsp.isWsjtMode (s : DspState) (demodulator : Option String) : Bool :=
  match demodulator with
  | some d => wsjt_kinds.contains d
  | none =>
    match dsp.get_secondary_demodulator s with
    | some d => wsjt_kinds.contains d
    | none => false

/-- `dsp.get_audio_rate`. -/
def dsp.get_audio_rate (s : DspState) : ℚ :=
  if dsp.isDigitalVoice s none then 48000
  else if dsp.isWsjtMode s none then 12000
  else dsp.get_output_rate s

/-- The `while input_rate / (decimation+1) >= output_rate: decimation += 1`
loop of `dsp.get_decimation`, with an explicit fuel bound on the number of
iterations (the caller passes a provably sufficient fuel; see
`dsp.get_decimation`). -/
def dsp.get_decimation_go (input_rate output_rate : ℚ) : Nat → Nat → Nat
  | 0, decimation => decimation
  | fuel + 1, decimation =>
    if input_rate / ((decimation : ℚ) + 1) ≥ output_rate then
      dsp.get_decimation_go input_rate output_rate fuel (decimation + 1)
    else decimation

/-- `dsp.get_decimation(input_rate, output_rate)`: returns
`(decimation, fraction, intermediate_rate)`.  The fuel
`⌈input_rate/output_rate⌉ + 1` dominates the iteration count of the source's
while loop whenever that loop terminates (each iteration forces
`decimation + 1 ≤ input_rate/output_rate`). -/
def dsp.get_decimation (input_rate output_rate : ℚ) : Nat × ℚ × ℚ :=
  let fuel := (⌈input_rate / output_rate⌉).toNat + 1
  let decimation := dsp.get_decimation_go input_rate output_rate fuel 1
  let fraction := (input_rate / (decimation : ℚ)) / output_rate
  let intermediate_rate := input_rate / (decimation : ℚ)
  (decimation, fraction, intermediate_rate)

/-- `dsp.calculate_decimation`: stores decimation and fractional ratio computed
from the sample rate and the mode-dependent audio rate. -/
def dsp.calculate_decimation (s : DspState) : DspState :=
  let r := dsp.get_decimation s.samp_rate (dsp.get_audio_rate s)
  { s with decimation := r.1, last_decimation := r.2.1 }

/-- `dsp.set_demodulator`: early-returns when the kind is unchanged; otherwise
stores the kind, recomputes the decimation profile and calls `restart()`.  The
boolean records whether `restart()` was invoked. -/
def dsp.set_demodulator (s : DspState) (demodulator : String) : DspState × Bool :=
  if s.demodulator = demodulator then (s, false)
  else (dsp.calculate_decimation { s with demodulator := demodulator }, true)

/-- `dsp.set_secondary_demodulator`: early-returns when the kind is unchanged;
otherwise stores it, recomputes the decimation profile and calls `restart()`.
The boolean records whether `restart()` was invoked. -/
def dsp.set_secondary_demodulator (s : DspState) (what : Option String) :
    DspState × Bool :=
  if dsp.get_secondary_demodulator s = what then (s, false)
  else (dsp.calculate_decimation { s with secondary_demodulator := what }, true)

/-- `dsp.set_squelch_level`: stores the threshold, then (only when running)
writes one `"%g\n"` line to the squelch control channel, whose numeric value is
`0` for digital-voice modes and the threshold otherwise.  The returned list
holds the numeric values written to the squelch pipe. -/
def dsp.set_squelch_level (s : DspState) (squelch_level : ℚ) :
    DspState × List ℚ :=
  let s1 := { s with squelch_level := squelch_level }
  let actual_squelch : ℚ :=
    if dsp.isDigitalVoice s1 none then 0 else s1.squelch_level
  if s1.running then (s1, [actual_squelch]) else (s1, [])

/-- The agc command string for the DSD-based digital-voice modes
(`max_gain = 5` substituted, as in the source's `.format(max_gain=max_gain)`). -/
def dsp.dv_agc_dsd : String :=
  "CSDR_FIXED_BUFSIZE=32 csdr agc_ff 160000 0.8 1 0.0000001 5"

/-- The agc command string for the digiham digital-voice modes
(`max_gain = 0.0005` substituted). -/
def dsp.dv_agc_digiham : String :=
  "CSDR_FIXED_BUFSIZE=32 csdr agc_ff 160000 0.8 1 0.0000001 0.0005"

/-- The stages appended to every digital-voice back end after the decoder:
`digitalvoice_filter`, the fixed-bufsize agc (mode-dependent gain ceiling), and
the resampling sox stage. -/
def dsp.digitalvoice_backend_tail (agc_line : String) : List String :=
  ["digitalvoice_filter -f",
   agc_line,
   "sox -t raw -r 8000 -e floating-point -b 32 -c 1 --buffer 32 - -t raw -r {output_rate} -e signed-integer -b 16 -c 1 - "]

/-- `dsp.chain(which)`: the ordered list of stage command templates, exactly as
assembled in src/csdr.py lines 82-186 (placeholders unsubstituted, as in the
source before `.format`). -/
def dsp.chain (s : DspState) (which : String) : List String :=
  let base :=
    ["nc -v 127.0.0.1 {nc_port}"]
    ++ (if s.csdr_dynamic_bufsize then ["csdr setbuf {start_bufsize}"] else [])
    ++ (if s.csdr_through then ["csdr through"] else [])
  if which = "fft" then
    base
    ++ ["csdr fft_cc {fft_size} {fft_block_size}",
        (if s.fft_averages = 0 then "csdr logpower_cf -70"
         else "csdr logaveragepower_cf -70 {fft_size} {fft_averages}"),
        "csdr fft_exchange_sides_ff {fft_size}"]
    ++ (if s.fft_compression = "adpcm" then
          ["csdr compress_fft_adpcm_f_u8 {fft_size}"]
        else [])
  else
    let front :=
      base
      ++ ["csdr shift_addition_cc --fifo {shift_pipe}",
          "csdr fir_decimate_cc {decimation} {ddc_transition_bw} HAMMING",
          "csdr bandpass_fir_fft_cc --fifo {bpf_pipe} {bpf_transition_bw} HAMMING",
          "csdr squelch_and_smeter_cc --fifo {squelch_pipe} --outfifo {smeter_pipe} 5 {smeter_report_every}"]
      ++ (if s.secondary_demodulator.isSome then
            ["csdr tee {iqtee_pipe}", "csdr tee {iqtee2_pipe}"]
          else [])
    let last_decimation_block :=
      if s.last_decimation ≠ (1 : ℚ) then
        ["csdr fractional_decimator_ff {last_decimation}"]
      else []
    let body :=
      if which = "nfm" then
        ["csdr fmdemod_quadri_cf", "csdr limit_ff"]
        ++ last_decimation_block
        ++ ["csdr deemphasis_nfm_ff {output_rate}", "csdr convert_f_s16"]
      else if dsp.isDigitalVoice s (some which) then
        ["csdr fmdemod_quadri_cf", "dc_block "]
        ++ last_decimation_block
        ++ (if which = "dstar" ∨ which = "nxdn" then
              ["csdr limit_ff", "csdr convert_f_s16"]
              ++ (if which = "dstar" then
                    ["dsd -fd -i - -o - -u {unvoiced_quality} -g -1 "]
                  else if which = "nxdn" then
                    ["dsd -fi -i - -o - -u {unvoiced_quality} -g -1 "]
                  else [])
              ++ ["CSDR_FIXED_BUFSIZE=32 csdr convert_s16_f"]
              ++ dsp.digitalvoice_backend_tail dsp.dv_agc_dsd
            else
              ["rrc_filter", "gfsk_demodulator"]
              ++ (if which = "dmr" then
                    ["dmr_decoder --fifo {meta_pipe} --control-fifo {dmr_control_pipe}",
                     "mbe_synthesizer -f -u {unvoiced_quality}"]
                  else if which = "ysf" then
                    ["ysf_decoder --fifo {meta_pipe}",
                     "mbe_synthesizer -y -f -u {unvoiced_quality}"]
                  else [])
              ++ dsp.digitalvoice_backend_tail dsp.dv_agc_digiham)
      else if which = "am" then
        ["csdr amdemod_cf", "csdr fastdcblock_ff"]
        ++ last_decimation_block
        ++ ["csdr agc_ff", "csdr limit_ff", "csdr convert_f_s16"]
      else if which = "ssb" then
        ["csdr realpart_cf"]
        ++ last_decimation_block
        ++ ["csdr agc_ff", "csdr limit_ff"]
        ++ (if dsp.isWsjtMode s none = true ∧
               dsp.get_audio_rate s ≠ dsp.get_output_rate s then
              ["sox -t raw -r {audio_rate} -e floating-point -b 32 -c 1 --buffer 32 - -t raw -r {output_rate} -e signed-integer -b 16 -c 1 - "]
            else ["csdr convert_f_s16"])
      else []
    front ++ body
    ++ (if s.audio_compression = "adpcm" then
          ["csdr encode_ima_adpcm_i16_u8"]
        else [])

/-- A `DspState` mirroring the attribute defaults of `dsp.__init__`
(`decimation` and `last_decimation` are not assigned in `__init__`; they are
first set by `calculate_decimation`, so their values here are placeholders). -/
def initState : DspState :=
  { samp_rate := 250000
    output_rate := 11025
    demodulator := "nfm"
    secondary_demodulator := none
    squelch_level := 0
    running := false
    csdr_dynamic_bufsize := false
    csdr_through := false
    audio_compression := "none"
    fft_compression := "none"
    fft_averages := 50
    decimation := 1
    last_decimation := 1 }

/-- Python `int(q)` for a real `q`: truncation toward zero. -/
def int_toward_zero (q : ℚ) : ℤ := if q < 0 then ⌈q⌉ else ⌊q⌋

/-- `WsjtChopper.getNextDecodingTime` (src/owrx/wsjt.py lines 42-49), with the
current wall-clock instant decomposed as `hour_start + offset`: `hour_start` is
the timestamp of `t.replace(minute=0, second=0, microsecond=0)` (top of the
current hour) and `offset = (t - zeroed).total_seconds() ≥ 0` the elapsed
seconds (including fractions) since then.  The source computes
`seconds = (int(delta.total_seconds() / interval) + 1) * interval` and returns
`zeroed + timedelta(seconds=seconds)`. -/
def WsjtChopper.getNextDecodingTime (hour_start offset interval : ℚ) : ℚ :=
  hour_start + ((int_toward_zero (offset / interval) : ℚ) + 1) * interval

/-- The rotation interval of `Ft8Chopper`. -/
def Ft8Chopper.interval : ℚ := 15

/-- The rotation interval of `WsprChopper`. -/
def WsprChopper.interval : ℚ := 120

/-- The rotation interval of `Jt65Chopper`. -/
def Jt65Chopper.interval : ℚ := 60

/-- The rotation interval of `Jt9Chopper`. -/
def Jt9Chopper.interval : ℚ := 60

/-- The rotation interval of `Ft4Chopper`. -/
def Ft4Chopper.interval : ℚ := 15 / 2

/-- The queue effect of `WsjtChopper.switchFiles`: the sealed file is appended
at the end of `fileQueue` (`self.fileQueue.append(filename)`). -/
def WsjtChopper.switchFiles_enqueue (fileQueue : List String)
    (filename : String) : List String :=
  fileQueue ++ [filename]

/-- The queue effect of `WsjtChopper.decode`: when the queue is nonempty,
`self.fileQueue.pop()` removes and dispatches the LAST element (Python
`list.pop()` with no index).  Returns the dispatched file and the remaining
queue, or `none` when the queue is empty. -/
def WsjtChopper.decode_pop (fileQueue : List String) :
    Option (String × List String) :=
  match fileQueue.getLast? with
  | none => none
  | some f => some (f, fileQueue.dropLast)

/-- Python whitespace, as stripped by `str.strip`/`str.rstrip` and matched by
the regex class `\s` (ASCII range; the decoder output is ASCII). -/
def isPySpace (c : Char) : Bool :=
  c = ' ' || c = '\t' || c = '\n' || c = '\r' || c = '\x0b' || c = '\x0c'

/-- The character class `[A-Z0-9]` of the locator regexes. -/
def isUpperAlnum (c : Char) : Bool :=
  (('A' ≤ c) && (c ≤ 'Z')) || (('0' ≤ c) && (c ≤ '9'))

/-- The character class `[A-R]` of the grid-locator regexes. -/
def isAtoR (c : Char) : Bool := ('A' ≤ c) && (c ≤ 'R')

/-- The character class `[0-9]`. -/
def isDigitChar (c : Char) : Bool := ('0' ≤ c) && (c ≤ '9')

/-- Python `str.rstrip()` (no argument): drop trailing whitespace. -/
def pyRstrip (s : String) : String :=
  String.mk ((s.data.reverse.dropWhile isPySpace).reverse)

/-- Python `str.lstrip()` (no argument): drop leading whitespace. -/
def pyLstrip (s : String) : String := String.mk (s.data.dropWhile isPySpace)

/-- Python `str.strip()` (no argument). -/
def pyStrip (s : String) : String := pyRstrip (pyLstrip s)

/-- Python slicing `s[a:b]` for `0 ≤ a ≤ b` (out-of-range bounds clamp, never
raising). -/
def pySlice (s : String) (a b : Nat) : String :=
  String.mk ((s.data.drop a).take (b - a))

/-- Python slicing `s[a:]`. -/
def pySliceFrom (s : String) (a : Nat) : String := String.mk (s.data.drop a)

/-- Python indexing `s[i]` for `i ≥ 0`: raises `IndexError` when out of
range. -/
def pyCharAt (s : String) (i : Nat) : Except PyErr Char :=
  match s.data.drop i with
  | [] => Except.error PyErr.indexError
  | c :: _ => Except.ok c

/-- Python `str.startswith`. -/
def pyStartswith (s p : String) : Bool := p.data.isPrefixOf s.data

/-- Decimal value of a digit list. -/
def digitsToNat (l : List Char) : Nat :=
  l.foldl (fun a c => a * 10 + (c.toNat - 48)) 0

/-- Python `float(str)`: optional surrounding whitespace, optional sign, then
digits with an optional fractional part; everything else raises `ValueError`.
(Exponent/`inf`/`nan` forms never occur in the fixed decoder columns this
parser slices and are not modelled; a malformed column raises `ValueError`
either way.) -/
def pyFloat (s : String) : Except PyErr ℚ :=
  let t := (pyStrip s).data
  let signed : ℚ × List Char :=
    match t with
    | '-' :: rest => (-1, rest)
    | '+' :: rest => (1, rest)
    | _ => (1, t)
  let sign := signed.1
  let t1 := signed.2
  let intpart := t1.takeWhile isDigitChar
  let t2 := t1.dropWhile isDigitChar
  match t2 with
  | [] =>
    if intpart.isEmpty then Except.error PyErr.valueError
    else Except.ok (sign * (digitsToNat intpart : ℚ))
  | '.' :: t3 =>
    let fracpart := t3.takeWhile isDigitChar
    let t4 := t3.dropWhile isDigitChar
    if t4.isEmpty = false then Except.error PyErr.valueError
    else if intpart.isEmpty && fracpart.isEmpty then Except.error PyErr.valueError
    else Except.ok (sign *
      ((digitsToNat intpart : ℚ) + (digitsToNat fracpart : ℚ) / (10 : ℚ) ^ fracpart.length))
  | _ => Except.error PyErr.valueError

/-- Python `int(str)`: optional surrounding whitespace, optional sign, then
decimal digits only; everything else raises `ValueError`. -/
def pyInt (s : String) : Except PyErr ℤ :=
  let t := (pyStrip s).data
  let signed : ℤ × List Char :=
    match t with
    | '-' :: rest => (-1, rest)
    | '+' :: rest => (1, rest)
    | _ => (1, t)
  let sign := signed.1
  let t1 := signed.2
  if t1.isEmpty then Except.error PyErr.valueError
  else if t1.all isDigitChar then Except.ok (sign * (digitsToNat t1 : ℤ))
  else Except.error PyErr.valueError

/-- `datetime.strptime(instring, dateformat)` for the two formats the parser
uses: `fmt_is_hm = true` is `"%H%M"` (4 digits), `false` is `"%H%M%S"`
(6 digits).  Returns `(hour, minute, second)`; out-of-range fields or
non-matching input raise `ValueError` (CPython accepts seconds up to 61). -/
def strptime_hms (s : String) (fmt_is_hm : Bool) : Except PyErr (Nat × Nat × Nat) :=
  match fmt_is_hm, s.data with
  | true, [h1, h2, m1, m2] =>
    if isDigitChar h1 && isDigitChar h2 && isDigitChar m1 && isDigitChar m2 then
      let h := digitsToNat [h1, h2]
      let m := digitsToNat [m1, m2]
      if h ≤ 23 && m ≤ 59 then Except.ok (h, m, 0)
      else Except.error PyErr.valueError
    else Except.error PyErr.valueError
  | false, [h1, h2, m1, m2, s1, s2] =>
    if isDigitChar h1 && isDigitChar h2 && isDigitChar m1 && isDigitChar m2 &&
       isDigitChar s1 && isDigitChar s2 then
      let h := digitsToNat [h1, h2]
      let m := digitsToNat [m1, m2]
      let sec := digitsToNat [s1, s2]
      if h ≤ 23 && m ≤ 59 && sec ≤ 61 then Except.ok (h, m, sec)
      else Except.error PyErr.valueError
    else Except.error PyErr.valueError
  | _, _ => Except.error PyErr.valueError

/-- The UTC millisecond timestamp
`datetime.combine(date.today(), time(h, m, sec)).replace(tzinfo=utc).timestamp() * 1000`,
with `today` the number of days from the Unix epoch to today's UTC calendar
date. -/
def wsjt_utc_ms (today : ℤ) (h m sec : Nat) : ℤ :=
  (today * 86400 + ((h : ℤ) * 3600 + (m : ℤ) * 60 + (sec : ℤ))) * 1000

/-- `WsjtParser.parse_timestamp`, parameterised by today's UTC date (as epoch
days). -/
def WsjtParser.parse_timestamp (today : ℤ) (instring : String)
    (fmt_is_hm : Bool) : Except PyErr ℤ := do
  let (h, m, sec) ← strptime_hms instring fmt_is_hm
  pure (wsjt_utc_ms today h m sec)

/-- One `Map.updateLocation(callsign, LocatorLocation(locator), mode, band)`
call issued by the parser (the band argument is external state, not part of
the parsing logic). -/
structure MapUpdate where
  callsign : String
  locator : String
  mode : String
deriving DecidableEq, Repr

/-- The spot dictionary returned by `parse_from_jt9` / `parse_from_wsprd`
(`drift` is present only for WSPR lines, whose `freq` is also a float). -/
structure SpotRecord where
  timestamp : ℤ
  db : ℚ
  dt : ℚ
  freq : ℚ
  drift : Option ℤ
  mode : String
  msg : String
deriving DecidableEq, Repr

/-- `WsjtParser.modes`: mode-marker character (as the 1-character string a
Python indexing/slicing yields) to mode label. -/
def WsjtParser.modes : List (String × String) :=
  [("~", "FT8"), ("#", "JT65"), ("@", "JT9"), ("+", "FT4")]

/-- `list(WsjtParser.modes.keys())`. -/
def WsjtParser.mode_markers : List String := WsjtParser.modes.map Prod.fst

/-- The character class Python’s `.` matches without `re.DOTALL`: any
character except a newline.  `no_newline l = true` says that `.*` can consume
`l`. -/
def no_newline (l : List Char) : Bool := l.all (fun c => !(c == '\n'))

/-- Core of the `locator_pattern` match, on the REVERSED character list of the
portion of the input that the anchor `$` terminates.  Because the
`([A-R]{2}[0-9]{2})$` suffix has fixed length 4, group 2 is forced to be the
last four characters of that portion; the preceding `\s`, the maximal
`[A-Z0-9]+` run before it (whitespace and `[A-Z0-9]` are disjoint, so no
backtracking produces any other group), and one more `\s` are likewise
forced.  Greedy `.*` must then consume exactly the remaining prefix, which it
can do if and only if that prefix contains no newline (`.` does not match
`'\n'`; the two single-character `\s` classes do). -/
def WsjtParser.locator_core_rev (r : List Char) : Option (String × String) :=
  match r with
  | d2 :: d1 :: l2 :: l1 :: w2 :: rest =>
    if isDigitChar d2 && isDigitChar d1 && isAtoR l2 && isAtoR l1 && isPySpace w2 then
      let csRev := rest.takeWhile isUpperAlnum
      let rest2 := rest.dropWhile isUpperAlnum
      match rest2 with
      | w1 :: prefixRev =>
        if csRev.isEmpty = false && isPySpace w1 && no_newline prefixRev then
          some (String.mk csRev.reverse, String.mk [l1, l2, d1, d2])
        else none
      | [] => none
    else none
  | _ => none

/-- `re.match` of `WsjtParser.locator_pattern`, i.e. of
`.*\s([A-Z0-9]+)\s([A-R]{2}[0-9]{2})$`, returning `(group(1), group(2))` on a
match.  Without `re.MULTILINE`, `$` matches at the end of the string or just
before one terminating newline, so the pattern is matched against the whole
string or, when the string ends in `'\n'`, against everything before that
final newline (the locator classes exclude `'\n'`, so at most one of the two
anchor positions can yield a match). -/
def WsjtParser.locator_pattern_match (s : String) : Option (String × String) :=
  match s.data.reverse with
  | c :: r =>
    if c = '\n' then WsjtParser.locator_core_rev r
    else WsjtParser.locator_core_rev (c :: r)
  | [] => WsjtParser.locator_core_rev []

/-- `WsjtParser.parseLocator(msg, mode)`: returns the list of map updates
issued (empty, or one).  The locator `"RR73"` — a courtesy code that happens to
parse as a valid grid square — is explicitly excluded. -/
def WsjtParser.parseLocator (msg mode : String) : List MapUpdate :=
  match WsjtParser.locator_pattern_match msg with
  | none => []
  | some g =>
    if g.2 = "RR73" then []
    else [{ callsign := g.1, locator := g.2, mode := mode }]

/-- `re.match` of `WsjtParser.wspr_splitter_pattern`, i.e. of
`([A-Z0-9]*)\s([A-R]{2}[0-9]{2})\s([0-9]+)` (a prefix match anchored at the
start).  Greedy `([A-Z0-9]*)` is forced to the maximal leading `[A-Z0-9]` run
(shortening it would put an `[A-Z0-9]` character where `\s` must match), then
the remaining groups are forced. -/
def WsjtParser.wspr_splitter_match (s : String) :
    Option (String × String × String) :=
  let cs := s.data.takeWhile isUpperAlnum
  let r1 := s.data.dropWhile isUpperAlnum
  match r1 with
  | w1 :: l1 :: l2 :: d1 :: d2 :: w2 :: rest =>
    if isPySpace w1 && isAtoR l1 && isAtoR l2 && isDigitChar d1 &&
       isDigitChar d2 && isPySpace w2 then
      let digits := rest.takeWhile isDigitChar
      if digits.isEmpty then none
      else some (String.mk cs, String.mk [l1, l2, d1, d2], String.mk digits)
    else none
  | _ => none

/-- `WsjtParser.parseWsprMessage(msg)`: the list of map updates issued. -/
def WsjtParser.parseWsprMessage (msg : String) : List MapUpdate :=
  match WsjtParser.wspr_splitter_match msg with
  | none => []
  | some g => [{ callsign := g.1, locator := g.2.1, mode := "WSPR" }]

/-- `WsjtParser.parse_from_jt9(msg)` (src/owrx/wsjt.py lines 222-246),
returning the spot record together with the map updates `parseLocator`
issued. -/
def WsjtParser.parse_from_jt9 (today : ℤ) (msg : String) :
    Except PyErr (SpotRecord × List MapUpdate) := do
  let c19 ← pyCharAt msg 19
  let fmt_is_hm := WsjtParser.mode_markers.contains (String.mk [c19])
  let flen := if fmt_is_hm then 4 else 6
  let timestamp ← WsjtParser.parse_timestamp today (pySlice msg 0 flen) fmt_is_hm
  let msg := pySliceFrom msg (flen + 1)
  let modeChar := pySlice msg 14 15
  let mode :=
    match WsjtParser.modes.lookup modeChar with
    | some m => m
    | none => "unknown"
  let wsjt_msg := pyStrip (pySlice msg 17 53)
  let updates := WsjtParser.parseLocator wsjt_msg mode
  let db ← pyFloat (pySlice msg 0 3)
  let dt ← pyFloat (pySlice msg 4 8)
  let freq ← pyInt (pySlice msg 9 13)
  pure ({ timestamp := timestamp, db := db, dt := dt, freq := (freq : ℚ),
          drift := none, mode := mode, msg := wsjt_msg }, updates)

/-- `WsjtParser.parse_from_wsprd(msg)` (src/owrx/wsjt.py lines 258-272). -/
def WsjtParser.parse_from_wsprd (today : ℤ) (msg : String) :
    Except PyErr (SpotRecord × List MapUpdate) := do
  let wsjt_msg := pyStrip (pySliceFrom msg 29)
  let updates := WsjtParser.parseWsprMessage wsjt_msg
  let timestamp ← WsjtParser.parse_timestamp today (pySlice msg 0 4) true
  let db ← pyFloat (pySlice msg 5 8)
  let dt ← pyFloat (pySlice msg 9 13)
  let freq ← pyFloat (pySlice msg 14 24)
  let drift ← pyInt (pySlice msg 25 28)
  pure ({ timestamp := timestamp, db := db, dt := dt, freq := freq,
          drift := some drift, mode := "WSPR", msg := wsjt_msg }, updates)

/-- The known diagnostic prefix `<DecodeFinished>`. -/
def WsjtParser.debug_marker1 : String := "<DecodeFinished>"

/-- The known diagnostic prefix for decoder EOF lines. -/
def WsjtParser.debug_marker2 : String := " EOF on input file"

/-- The body of the `try:` block of `WsjtParser.parse` (src/owrx/wsjt.py lines
200-214): rstrip the decoded line, discard known diagnostics, probe the mode
marker at offset 21 then (short-circuit `or`) 19, and dispatch to the
format-specific parser.  `data` is the already-decoded text of the input bytes
(a `UnicodeDecodeError` from `data.decode()` is a `ValueError` subclass and so
behaves like any other `ValueError` here). -/
def WsjtParser.parse_body (today : ℤ) (data : String) :
    Except PyErr (Option (SpotRecord × List MapUpdate)) := do
  let msg := pyRstrip data
  if pyStartswith msg WsjtParser.debug_marker1 then
    pure none
  else if pyStartswith msg WsjtParser.debug_marker2 then
    pure none
  else do
    let c21 ← pyCharAt msg 21
    if WsjtParser.mode_markers.contains (String.mk [c21]) then
      let out ← WsjtParser.parse_from_jt9 today msg
      pure (some out)
    else do
      let c19 ← pyCharAt msg 19
      if WsjtParser.mode_markers.contains (String.mk [c19]) then
        let out ← WsjtParser.parse_from_jt9 today msg
        pure (some out)
      else
        let out ← WsjtParser.parse_from_wsprd today msg
        pure (some out)

/-- `WsjtParser.parse(data)` (src/owrx/wsjt.py lines 199-216): the body runs
under `try: ... except ValueError: logger.exception(...)`, so a `ValueError`
is swallowed (logged, no record handed to the handler) while any other
exception propagates to the caller. -/
def WsjtParser.parse (today : ℤ) (data : String) :
    Except PyErr (Option (SpotRecord × List MapUpdate)) :=
  match WsjtParser.parse_body today data with
  | Except.error PyErr.valueError => Except.ok none
  | r => r

/-- Membership in an if-then-else list, split propositionally. -/
theorem mem_ite_list {α : Type} {c : Prop} [Decidable c] {a : α}
    {l m : List α} :
    (a ∈ (if c then l else m)) ↔ ((c ∧ a ∈ l) ∨ (¬c ∧ a ∈ m)) := by
  split_ifs with h <;> simp [h]

/-- C2: `get_audio_rate` returns 48000 when the primary demodulator kind is a
digital-voice kind; otherwise 12000 when the secondary demodulator kind is a
weak-signal (WSJT) kind; otherwise the configured output rate. -/
theorem claim_C2_audio_rate (s : DspState) :
    (dsp.isDigitalVoice s none = true → dsp.get_audio_rate s = 48000)
    ∧ (dsp.isDigitalVoice s none = false → dsp.isWsjtMode s none = true →
        dsp.get_audio_rate s = 12000)
    ∧ (dsp.isDigitalVoice s none = false → dsp.isWsjtMode s none = false →
        dsp.get_audio_rate s = dsp.get_output_rate s) := by
  refine ⟨fun h => ?_, fun h1 h2 => ?_, fun h1 h2 => ?_⟩ <;>
    simp [dsp.get_audio_rate, *]

/-- Witness for C2 at concrete configurations: a dmr primary fixes 48 kHz, an
ft8 secondary fixes 12 kHz, and the default nfm configuration keeps the
configured output rate. -/
theorem claim_C2_audio_rate_witness :
    dsp.get_audio_rate { initState with demodulator := "dmr" } = 48000
    ∧ dsp.get_audio_rate { initState with secondary_demodulator := some "ft8" } = 12000
    ∧ dsp.get_audio_rate initState = dsp.get_output_rate initState :=
  ⟨(claim_C2_audio_rate _).1 rfl,
   (claim_C2_audio_rate _).2.1 rfl rfl,
   (claim_C2_audio_rate _).2.2 rfl rfl⟩

/-- C3 counterexample: with two sealed windows pending (`w1` sealed before
`w2`), `decode` dispatches `w2` — the most recently sealed — first, because
`fileQueue.pop()` removes the last list element.  The claimed
window-rotation-order (FIFO) dispatch is therefore false. -/
theorem claim_C3_counterexample :
    WsjtChopper.decode_pop
        (WsjtChopper.switchFiles_enqueue
          (WsjtChopper.switchFiles_enqueue [] "w1") "w2")
      = some ("w2", ["w1"])
    ∧ ("w2" : String) ≠ "w1" := by
  constructor
  · rfl
  · decide

/-- C3 amended: decode dispatch is most-recently-sealed first (LIFO): whatever
windows are already pending, a `decode` call after a `switchFiles` dispatches
the window that `switchFiles` just sealed, not the oldest pending one. -/
theorem claim_C3_amended_lifo (q : List String) (f : String) :
    WsjtChopper.decode_pop (WsjtChopper.switchFiles_enqueue q f) = some (f, q) := by
  unfold WsjtChopper.decode_pop WsjtChopper.switchFiles_enqueue
  rw [List.getLast?_concat, List.dropLast_concat]

/-- C5: while running, `set_squelch_level` writes `0` to the squelch control
channel when the primary kind is digital-voice and the configured threshold
otherwise; in both cases the stored `squelch_level` field becomes the new
threshold. -/
theorem claim_C5_squelch (s : DspState) (lvl : ℚ) (hrun : s.running = true) :
    (dsp.isDigitalVoice s none = true →
      dsp.set_squelch_level s lvl = ({ s with squelch_level := lvl }, [0]))
    ∧ (dsp.isDigitalVoice s none = false →
      dsp.set_squelch_level s lvl = ({ s with squelch_level := lvl }, [lvl])) := by
  constructor <;> intro h <;>
    simp [dsp.set_squelch_level, dsp.isDigitalVoice, dsp.get_demodulator,
      hrun] <;>
    simp [dsp.isDigitalVoice, dsp.get_demodulator] at h <;>
    simp [h]

/-- Witness for C5: with a running dmr chain a threshold of 5 writes `0`; with
a running nfm chain it writes `5`; the stored threshold becomes 5 in both. -/
theorem claim_C5_squelch_witness :
    dsp.set_squelch_level { initState with demodulator := "dmr", running := true } 5
      = ({ initState with demodulator := "dmr", running := true, squelch_level := 5 }, [0])
    ∧ dsp.set_squelch_level { initState with running := true } 5
      = ({ initState with running := true, squelch_level := 5 }, [5]) :=
  ⟨(claim_C5_squelch { initState with demodulator := "dmr", running := true } 5 rfl).1 rfl,
   (claim_C5_squelch { initState with running := true } 5 rfl).2 rfl⟩

/-- C10: `set_demodulator` with the current primary kind is a complete no-op
(state unchanged, no decimation recomputation, no restart), and likewise
`set_secondary_demodulator` with the current secondary kind. -/
theorem claim_C10_setter_noop (s : DspState) (k : String) (k2 : Option String) :
    (s.demodulator = k → dsp.set_demodulator s k = (s, false))
    ∧ (dsp.get_secondary_demodulator s = k2 →
        dsp.set_secondary_demodulator s k2 = (s, false)) := by
  constructor <;> intro h <;>
    simp [dsp.set_demodulator, dsp.set_secondary_demodulator, h]

/-- Witness for C10 at the default configuration: re-setting the primary kind
`nfm` and the secondary kind `None` changes nothing and triggers no restart. -/
theorem claim_C10_setter_noop_witness :
    dsp.set_demodulator initState "nfm" = (initState, false)
    ∧ dsp.set_secondary_demodulator initState none = (initState, false) :=
  ⟨(claim_C10_setter_noop initState "nfm" none).1 rfl,
   (claim_C10_setter_noop initState "nfm" none).2 rfl⟩

/-- C7: `getNextDecodingTime` returns the earliest instant strictly after the
current time `hour_start + offset` that is an exact multiple of the interval
counted from the top of the current hour; in particular, with the 15 s FT8
interval, a start at HH:00:07 rotates first at HH:00:15 and a start at
HH:34:07 rotates first at HH:34:15 (the next multiple of 15 s since the top of
the hour, not 15 s after the start). -/
theorem claim_C7_next_decoding_time (hour_start offset interval : ℚ)
    (h0 : 0 ≤ offset) (hi : 0 < interval) :
    (hour_start + offset <
        WsjtChopper.getNextDecodingTime hour_start offset interval)
    ∧ (∃ k : ℤ, WsjtChopper.getNextDecodingTime hour_start offset interval
        = hour_start + (k : ℚ) * interval)
    ∧ (∀ k : ℤ, hour_start + offset < hour_start + (k : ℚ) * interval →
        WsjtChopper.getNextDecodingTime hour_start offset interval
          ≤ hour_start + (k : ℚ) * interval)
    ∧ WsjtChopper.getNextDecodingTime 0 7 Ft8Chopper.interval = 15
    ∧ WsjtChopper.getNextDecodingTime 0 (34 * 60 + 7) Ft8Chopper.interval
        = 34 * 60 + 15 := by
  have hx : 0 ≤ offset / interval := div_nonneg h0 hi.le
  have htz : int_toward_zero (offset / interval) = ⌊offset / interval⌋ := by
    unfold int_toward_zero
    rw [if_neg (not_lt.mpr hx)]
  unfold WsjtChopper.getNextDecodingTime
  rw [htz]
  refine ⟨?_, ⟨⌊offset / interval⌋ + 1, by push_cast; ring⟩, ?_,
    by norm_num [int_toward_zero, Ft8Chopper.interval],
    by norm_num [int_toward_zero, Ft8Chopper.interval]⟩
  · have h1 : offset / interval < (⌊offset / interval⌋ : ℚ) + 1 :=
      Int.lt_floor_add_one _
    have h2 : offset < ((⌊offset / interval⌋ : ℚ) + 1) * interval :=
      (div_lt_iff₀ hi).mp h1
    linarith
  · intro k hk
    have hk2 : offset < (k : ℚ) * interval := by linarith
    have h3 : offset / interval < (k : ℚ) := (div_lt_iff₀ hi).mpr hk2
    have h4 : ⌊offset / interval⌋ + 1 ≤ k := Int.floor_lt.mpr h3
    have h5 : ((⌊offset / interval⌋ : ℚ) + 1) ≤ (k : ℚ) := by exact_mod_cast h4
    have h6 := mul_le_mul_of_nonneg_right h5 hi.le
    linarith

/-- Witness for C7: projections of the theorem at `hour_start = 0`,
`offset = 7 s`, `interval = Ft8Chopper.interval = 15 s`. -/
theorem claim_C7_next_decoding_time_witness :
    ((0 : ℚ) + 7 < WsjtChopper.getNextDecodingTime 0 7 Ft8Chopper.interval)
    ∧ WsjtChopper.getNextDecodingTime 0 7 Ft8Chopper.interval = 15 :=
  ⟨(claim_C7_next_decoding_time 0 7 Ft8Chopper.interval (by norm_num)
      (by norm_num [Ft8Chopper.interval])).1,
   (claim_C7_next_decoding_time 0 7 Ft8Chopper.interval (by norm_num)
      (by norm_num [Ft8Chopper.interval])).2.2.2.1⟩

/-- Invariant-based specification of the decimation while-loop: starting from a
positive `d` with `output_rate ≤ input_rate / d` and enough fuel, the loop
stops at a value whose quotient still clears the output rate while the next
decimation's quotient falls below it. -/
theorem dsp.get_decimation_go_spec (input_rate output_rate : ℚ)
    (hpos : 0 < output_rate) :
    ∀ (fuel d : Nat), 0 < d → output_rate ≤ input_rate / (d : ℚ) →
      ⌊input_rate / output_rate⌋.toNat < d + fuel →
      (output_rate ≤ input_rate /
          (dsp.get_decimation_go input_rate output_rate fuel d : ℚ)
       ∧ input_rate /
           ((dsp.get_decimation_go input_rate output_rate fuel d : ℚ) + 1)
           < output_rate
       ∧ d ≤ dsp.get_decimation_go input_rate output_rate fuel d) := by
  intro fuel
  induction fuel with
  | zero =>
    intro d hd hinv hfuel
    exfalso
    have hdq : (0 : ℚ) < (d : ℚ) := by exact_mod_cast hd
    have h1 : output_rate * (d : ℚ) ≤ input_rate := (le_div_iff₀ hdq).mp hinv
    have h2 : (d : ℚ) ≤ input_rate / output_rate := by
      rw [le_div_iff₀ hpos]
      linarith [mul_comm output_rate (d : ℚ)]
    have h3 : (d : ℤ) ≤ ⌊input_rate / output_rate⌋ :=
      Int.le_floor.mpr (by push_cast; exact h2)
    omega
  | succ fuel ih =>
    intro d hd hinv hfuel
    rw [dsp.get_decimation_go]
    by_cases hc : input_rate / ((d : ℚ) + 1) ≥ output_rate
    · rw [if_pos hc]
      have hc2 : output_rate ≤ input_rate / ((d + 1 : Nat) : ℚ) := by
        push_cast
        exact hc
      have hrec := ih (d + 1) (by omega) hc2 (by omega)
      exact ⟨hrec.1, hrec.2.1, by omega⟩
    · rw [if_neg hc]
      push_neg at hc
      exact ⟨hinv, hc, le_refl d⟩

/-- Specification of `dsp.get_decimation` for positive rates with
`output_rate ≤ input_rate`: the returned decimation `d` is the largest
positive integer with `input_rate / d ≥ output_rate` (equivalently,
`input_rate / (d+1) < output_rate`), and the returned fraction is
`(input_rate / d) / output_rate`. -/
theorem dsp.get_decimation_spec (input_rate output_rate : ℚ)
    (hpos : 0 < output_rate) (hle : output_rate ≤ input_rate) :
    output_rate ≤ input_rate / ((dsp.get_decimation input_rate output_rate).1 : ℚ)
    ∧ input_rate / (((dsp.get_decimation input_rate output_rate).1 : ℚ) + 1)
        < output_rate
    ∧ (∀ d : Nat, 0 < d → output_rate ≤ input_rate / (d : ℚ) →
        d ≤ (dsp.get_decimation input_rate output_rate).1)
    ∧ (dsp.get_decimation input_rate output_rate).2.1
        = (input_rate / ((dsp.get_decimation input_rate output_rate).1 : ℚ))
            / output_rate := by
  have hdef : (dsp.get_decimation input_rate output_rate).1
      = dsp.get_decimation_go input_rate output_rate
          ((⌈input_rate / output_rate⌉).toNat + 1) 1 := rfl
  have h1 : output_rate ≤ input_rate / ((1 : Nat) : ℚ) := by
    push_cast
    simpa using hle
  have hfuel : ⌊input_rate / output_rate⌋.toNat
      < 1 + ((⌈input_rate / output_rate⌉).toNat + 1) := by
    have := Int.floor_le_ceil (input_rate / output_rate)
    omega
  obtain ⟨ha, hb, -⟩ := dsp.get_decimation_go_spec input_rate output_rate hpos
    ((⌈input_rate / output_rate⌉).toNat + 1) 1 (by omega) h1 hfuel
  rw [← hdef] at ha hb
  refine ⟨ha, hb, ?_, rfl⟩
  intro d hd hinv
  by_contra hgt
  push_neg at hgt
  have hres1 : ((dsp.get_decimation input_rate output_rate).1 : ℚ) + 1 ≤ (d : ℚ) := by
    have : (dsp.get_decimation input_rate output_rate).1 + 1 ≤ d := by omega
    exact_mod_cast this
  have hirpos : (0 : ℚ) < input_rate := lt_of_lt_of_le hpos hle
  have hp1 : (0 : ℚ) < ((dsp.get_decimation input_rate output_rate).1 : ℚ) + 1 := by
    positivity
  have hmono : input_rate / (d : ℚ)
      ≤ input_rate / (((dsp.get_decimation input_rate output_rate).1 : ℚ) + 1) :=
    div_le_div_of_nonneg_left hirpos.le hp1 hres1
  linarith

/-- C1: for positive rates with `inputRate ≥ outputRate`, `get_decimation`
returns the largest decimation `d` with `inputRate/d ≥ outputRate` (so
`inputRate/(d+1) < outputRate`) together with the fractional ratio
`(inputRate/d)/outputRate`; in particular `get_decimation(250000, 11025)`
returns decimation 22 and fractional ratio `≈ 1.0307` (within `10⁻⁴`). -/
theorem claim_C1_get_decimation (input_rate output_rate : ℚ)
    (hpos : 0 < output_rate) (hle : output_rate ≤ input_rate) :
    (output_rate ≤ input_rate / ((dsp.get_decimation input_rate output_rate).1 : ℚ)
     ∧ input_rate / (((dsp.get_decimation input_rate output_rate).1 : ℚ) + 1)
         < output_rate
     ∧ (∀ d : Nat, 0 < d → output_rate ≤ input_rate / (d : ℚ) →
         d ≤ (dsp.get_decimation input_rate output_rate).1)
     ∧ (dsp.get_decimation input_rate output_rate).2.1
         = (input_rate / ((dsp.get_decimation input_rate output_rate).1 : ℚ))
             / output_rate)
    ∧ ((dsp.get_decimation 250000 11025).1 = 22
       ∧ |(dsp.get_decimation 250000 11025).2.1 - 10307 / 10000| < 1 / 10000) := by
  refine ⟨dsp.get_decimation_spec input_rate output_rate hpos hle, ?_⟩
  have hs := dsp.get_decimation_spec 250000 11025 (by norm_num) (by norm_num)
  have h22 : 22 ≤ (dsp.get_decimation 250000 11025).1 :=
    hs.2.2.1 22 (by norm_num) (by norm_num)
  have hrq : (0 : ℚ) < ((dsp.get_decimation 250000 11025).1 : ℚ) := by
    exact_mod_cast (by omega : 0 < (dsp.get_decimation 250000 11025).1)
  have hle23 : ((dsp.get_decimation 250000 11025).1 : ℚ) ≤ 250000 / 11025 := by
    have h1 := (le_div_iff₀ hrq).mp hs.1
    rw [le_div_iff₀ (by norm_num : (0 : ℚ) < 11025)]
    linarith [mul_comm (11025 : ℚ) ((dsp.get_decimation 250000 11025).1 : ℚ)]
  have h23q : ((dsp.get_decimation 250000 11025).1 : ℚ) < 23 :=
    lt_of_le_of_lt hle23 (by norm_num)
  have h23 : (dsp.get_decimation 250000 11025).1 < 23 := by exact_mod_cast h23q
  have hreq : (dsp.get_decimation 250000 11025).1 = 22 := by omega
  refine ⟨hreq, ?_⟩
  rw [hs.2.2.2, hreq]
  rw [abs_sub_lt_iff]
  constructor <;> norm_num

/-- Witness for C1 at the spec's concrete rates 250000 and 11025: the
returned decimation clears the output rate and equals 22. -/
theorem claim_C1_get_decimation_witness :
    ((11025 : ℚ) ≤ 250000 / ((dsp.get_decimation 250000 11025).1 : ℚ))
    ∧ (dsp.get_decimation 250000 11025).1 = 22 :=
  ⟨(claim_C1_get_decimation 250000 11025 (by norm_num) (by norm_num)).1.1,
   (claim_C1_get_decimation 250000 11025 (by norm_num) (by norm_num)).2.1⟩

/-- C6: for every primary demodulator kind handled by the chain builder (nfm,
am, ssb, or a digital-voice kind), the built stage list contains the
fractional-decimator stage if and only if the stored fractional ratio
`last_decimation` differs from 1.0. -/
theorem claim_C6_fractional_stage (s : DspState) (which : String)
    (h : which ∈ ["nfm", "am", "ssb", "dmr", "dstar", "nxdn", "ysf"]) :
    ((r"csdr fractional_decimator_ff {last_decimation}") ∈ dsp.chain s which)
      ↔ s.last_decimation ≠ 1 := by
  fin_cases h <;>
    simp +decide [dsp.chain, mem_ite_list, dsp.isDigitalVoice,
      dsp.get_demodulator, dsp.digitalvoice_backend_tail, dsp.dv_agc_dsd,
      dsp.dv_agc_digiham]

/-- Witness for C6 at the default configuration and kind nfm. -/
theorem claim_C6_fractional_stage_witness :
    ((r"csdr fractional_decimator_ff {last_decimation}")
        ∈ dsp.chain initState "nfm")
      ↔ initState.last_decimation ≠ 1 :=
  claim_C6_fractional_stage initState "nfm" (by decide)

/-- Binding a raised exception short-circuits the rest of the computation. -/
theorem except_bind_error {A B : Type} (e : PyErr) (f : A → Except PyErr B) :
    (Bind.bind (Except.error e) f : Except PyErr B) = Except.error e := rfl

/-- Python whitespace is never an `[A-Z0-9]` character. -/
theorem isPySpace_not_upperAlnum (c : Char) (h : isPySpace c = true) :
    isUpperAlnum c = false := by
  unfold isPySpace at h
  simp only [Bool.or_eq_true, decide_eq_true_eq] at h
  rcases h with ((((h | h) | h) | h) | h) | h <;> subst h <;> decide

/-- `takeWhile`/`dropWhile` on a list that starts with a satisfying block
followed by a failing element. -/
theorem takeWhile_dropWhile_append (p : Char → Bool) (l1 : List Char) (c : Char)
    (l2 : List Char) (hall : ∀ x ∈ l1, p x = true) (hc : p c = false) :
    (l1 ++ c :: l2).takeWhile p = l1 ∧ (l1 ++ c :: l2).dropWhile p = c :: l2 := by
  induction l1 with
  | nil => simp [List.takeWhile_cons, List.dropWhile_cons, hc]
  | cons a t ih =>
    have ha : p a = true := hall a (by simp)
    have ht : ∀ x ∈ t, p x = true := fun x hx => hall x (by simp [hx])
    have := ih ht
    simp [List.takeWhile_cons, List.dropWhile_cons, ha, this.1, this.2]

/-- C8: parsing the format-A line `222100 -15 -0.0  508 ~  CQ EA7MJ IM66`
(marker `~` at probed offset 21) yields mode `FT8`, frequency 508, payload
`CQ EA7MJ IM66` and dB −15.0, with the timestamp combining 22:21:00 with
today's UTC calendar date; the locator `IM66` also produces one geography
update. -/
theorem claim_C8_parse_ft8_sample (today : ℤ) :
    WsjtParser.parse today ("222100 -15 -0.0  508 ~  CQ EA7MJ IM66")
      = Except.ok (some
          ({ timestamp := wsjt_utc_ms today 22 21 0, db := -15, dt := 0,
             freq := 508, drift := none, mode := "FT8",
             msg := "CQ EA7MJ IM66" },
           [{ callsign := "EA7MJ", locator := "IM66", mode := "FT8" }]))
    ∧ wsjt_utc_ms today 22 21 0
        = (today * 86400 + (22 * 3600 + 21 * 60 + 0)) * 1000 := by
  constructor
  · refine Eq.trans (rfl : _ = Except.ok (some (_, _))) ?_
    simp +decide [pyStrip, pyLstrip, pyRstrip, pySlice, pySliceFrom,
      WsjtParser.mode_markers, WsjtParser.modes, digitsToNat, isPySpace,
      isDigitChar, wsjt_utc_ms]
  · unfold wsjt_utc_ms
    push_cast
    ring

/-- C9: a payload whose trailing locator is exactly `RR73` never triggers a
geography update, while a payload ending in a whitespace-separated
callsign+grid-locator pair (callsign nonempty over `[A-Z0-9]`, locator of
shape `[A-R]{2}[0-9]{2}`, the newline-free prefix before them consumable by
the pattern’s leading `.*`) with locator ≠ `RR73` triggers exactly one. -/
theorem claim_C9_locator_updates :
    (∀ (p mode : String),
        WsjtParser.parseLocator (p ++ ("RR73" : String)) mode = [])
    ∧ (∀ (a cs : String) (w1 w2 l1 l2 d1 d2 : Char) (mode : String),
        isPySpace w1 = true → isPySpace w2 = true →
        cs.data ≠ [] → (∀ c ∈ cs.data, isUpperAlnum c = true) →
        (∀ c ∈ a.data, c ≠ '\n') →
        isAtoR l1 = true → isAtoR l2 = true →
        isDigitChar d1 = true → isDigitChar d2 = true →
        String.mk [l1, l2, d1, d2] ≠ ("RR73" : String) →
        (WsjtParser.parseLocator
            (a ++ String.mk [w1] ++ cs ++ String.mk [w2]
              ++ String.mk [l1, l2, d1, d2]) mode).length = 1) := by
  constructor
  · intro p mode
    unfold WsjtParser.parseLocator WsjtParser.locator_pattern_match
    have hR : ("RR73" : String).data = ['R', 'R', '7', '3'] := rfl
    rw [String.data_append, hR, List.reverse_append]
    have hrev : (['R', 'R', '7', '3'] : List Char).reverse
        = ['3', '7', 'R', 'R'] := rfl
    rw [hrev]
    simp only [List.cons_append, List.nil_append]
    cases hpd : p.data.reverse with
    | nil => simp +decide [WsjtParser.locator_core_rev]
    | cons w2 rest =>
      by_cases hw : isPySpace w2 = true
      · cases hdw : rest.dropWhile isUpperAlnum with
        | nil => simp +decide [WsjtParser.locator_core_rev, hw, hdw]
        | cons w1 rest3 =>
          by_cases hw1 : isPySpace w1 = true <;>
            by_cases hcs : (List.takeWhile isUpperAlnum rest).isEmpty = false <;>
            by_cases hnl : no_newline rest3 = true <;>
            simp +decide [WsjtParser.locator_core_rev, hw, hdw, hw1, hcs, hnl]
      · simp +decide [WsjtParser.locator_core_rev, hw]
  · intro a cs w1 w2 l1 l2 d1 d2 mode hw1 hw2 hcs hcsall hnla hl1 hl2 hd1 hd2 hne
    unfold WsjtParser.parseLocator WsjtParser.locator_pattern_match
    have hdata : (a ++ String.mk [w1] ++ cs ++ String.mk [w2]
          ++ String.mk [l1, l2, d1, d2]).data
        = a.data ++ [w1] ++ cs.data ++ [w2] ++ [l1, l2, d1, d2] := by
      simp [String.data_append]
    rw [hdata]
    have hrev : (a.data ++ [w1] ++ cs.data ++ [w2] ++ [l1, l2, d1, d2]).reverse
        = d2 :: d1 :: l2 :: l1 :: w2
            :: (cs.data.reverse ++ w1 :: a.data.reverse) := by
      simp [List.reverse_append]
    rw [hrev]
    have hd2n : ¬(d2 = '\n') := by
      intro h
      subst h
      exact absurd hd2 (by decide)
    have htw := takeWhile_dropWhile_append isUpperAlnum cs.data.reverse w1
      a.data.reverse (fun x hx => hcsall x (List.mem_reverse.mp hx))
      (isPySpace_not_upperAlnum w1 hw1)
    have hcsrev : cs.data.reverse.isEmpty = false := by
      rw [List.isEmpty_eq_false]
      simpa using hcs
    have hnlrev : no_newline a.data.reverse = true := by
      unfold no_newline
      rw [List.all_eq_true]
      intro c hc
      have hcc := hnla c (List.mem_reverse.mp hc)
      simp [hcc]
    simp +decide [WsjtParser.locator_core_rev, hd1, hd2, hl1, hl2, hw2, htw.1,
      htw.2, hw1, hcsrev, hnlrev, hne, hd2n]

/-- Witness for C9: `CQ EA7MJ RR73` triggers no update; `CQ EA7MJ IM66`
triggers exactly one. -/
theorem claim_C9_locator_updates_witness :
    WsjtParser.parseLocator (("CQ EA7MJ ") ++ ("RR73" : String)) ("FT8") = []
    ∧ (WsjtParser.parseLocator
        (("CQ") ++ String.mk [' '] ++ ("EA7MJ") ++ String.mk [' ']
          ++ String.mk ['I', 'M', '6', '6']) ("FT8")).length = 1 :=
  ⟨claim_C9_locator_updates.1 ("CQ EA7MJ ") ("FT8"),
   claim_C9_locator_updates.2 ("CQ") ("EA7MJ") ' ' ' ' 'I' 'M' '6' '6' ("FT8")
     (by decide) (by decide) (by decide) (by decide) (by decide) (by decide)
     (by decide) (by decide) (by decide) (by decide)⟩

/-- C4 counterexample: the line `nope` (9 < 22 characters, not a recognized
diagnostic) makes `parse` raise `IndexError` at `msg[21]` to its caller — only
`ValueError` is caught — so the claim that `parse` never raises is false. -/
theorem claim_C4_counterexample :
    WsjtParser.parse 0 ("nope") = Except.error PyErr.indexError := by
  refine Eq.trans (rfl : _ = Except.error PyErr.indexError) rfl

/-- C4 amended: a `ValueError` raised while parsing a line (the only exception
class the decoder columns raise past the marker probe) is caught and logged and
`parse` returns normally with no record; but a line that, after `rstrip`, is
shorter than 22 characters and is not a recognized diagnostic raises
`IndexError` at the `msg[21]` marker probe, which is not caught and propagates
to the caller. -/
theorem claim_C4_amended_exception_behavior :
    (∀ (today : ℤ) (data : String),
        WsjtParser.parse today data ≠ Except.error PyErr.valueError)
    ∧ (∀ (today : ℤ) (data : String),
        (pyRstrip data).data.length < 22 →
        pyStartswith (pyRstrip data) WsjtParser.debug_marker1 = false →
        pyStartswith (pyRstrip data) WsjtParser.debug_marker2 = false →
        WsjtParser.parse today data = Except.error PyErr.indexError) := by
  constructor
  · intro today data
    unfold WsjtParser.parse
    cases h : WsjtParser.parse_body today data with
    | ok v => simp
    | error e => cases e <;> simp
  · intro today data h1 h2 h3
    have hidx : pyCharAt (pyRstrip data) 21 = Except.error PyErr.indexError := by
      unfold pyCharAt
      have hnil : (pyRstrip data).data.drop 21 = [] :=
        List.drop_eq_nil_of_le (by omega)
      rw [hnil]
    unfold WsjtParser.parse WsjtParser.parse_body
    simp [h2, h3, hidx, except_bind_error]

/-- Witness for C4 (amended): at the concrete non-diagnostic 3-character line
`abc`, `parse` does not raise `ValueError` and does raise `IndexError`. -/
theorem claim_C4_amended_exception_behavior_witness :
    WsjtParser.parse 0 ("abc") ≠ Except.error PyErr.valueError
    ∧ WsjtParser.parse 0 ("abc") = Except.error PyErr.indexError :=
  ⟨claim_C4_amended_exception_behavior.1 0 ("abc"),
   claim_C4_amended_exception_behavior.2 0 ("abc") (by decide) (by decide)
     (by decide)⟩
